import Mathlib

/-!
Verification development for the ayah share-image renderer
(`backend/share_image.py` and the share endpoints of `backend/main.py`).

The Python source is shallowly embedded below.  External effects are made
explicit parameters:

* PIL font metrics (`draw.textbbox`) become a `measure`/`textbbox` function
  parameter standing for the `(font, draw)` pair of the source;
* the filesystem probed by `get_font`/`get_arabic_font` becomes the oracles
  `fsExists` (for `Path.exists`) and `truetypeOk` (for a successful
  `ImageFont.truetype` call);
* the on-disk background cache and the network become lookup functions
  `String → Option PILImage`; `random.choice` becomes an index parameter;
* PIL's Gaussian blur (an external C routine) becomes an oracle that is
  dimension-preserving by construction, the one property of it this
  development relies on;
* Python float arithmetic in pixel formulas (gradient interpolation,
  `int(c * scale)`) is modelled with exact integer arithmetic; for every
  constant appearing in the source the two agree, and no theorem below
  depends on individual pixel values.

Machine integers do not occur: Python integers are unbounded, as are the
`Nat`/`Int` used here.
-/

namespace ShareImage

/-- Card dimensions (content area), from `share_image.py`. -/
def CARD_WIDTH : Nat := 2400

/-- Landscape card height. -/
def CARD_HEIGHT : Nat := 1350

/-- Square card side. -/
def SQUARE_CARD_SIZE : Nat := 2160

/-- Portrait (9:16) card width. -/
def PORTRAIT_WIDTH : Nat := 1620

/-- Portrait card height. -/
def PORTRAIT_HEIGHT : Nat := 2880

/-- Shadow margin added around the card on each side. -/
def SHADOW_EXPAND : Nat := 200

/-- Gaussian blur radius of the drop shadow. -/
def SHADOW_BLUR : Nat := 100

/-- Drop-shadow opacity. -/
def SHADOW_OPACITY : Nat := 40

/-- Drop-shadow vertical offset. -/
def SHADOW_OFFSET_Y : Nat := 20

/-- Drop-shadow horizontal offset. -/
def SHADOW_OFFSET_X : Nat := 0

/-- Card corner radius. -/
def CORNER_RADIUS : Nat := 72

/-- `COLORS['gradient_start']`. -/
def COLORS_gradient_start : String := "#fff7ed"

/-- `COLORS['gradient_end']`. -/
def COLORS_gradient_end : String := "#ffedd5"

/-- `COLORS['accent']`. -/
def COLORS_accent : String := "#f97316"

/-- `COLORS['text_primary']`. -/
def COLORS_text_primary : String := "#1c1917"

/-- `COLORS['text_secondary']`. -/
def COLORS_text_secondary : String := "#44403c"

/-- `COLORS['gold']`. -/
def COLORS_gold : String := "#c2410c"

/-- Value of one hexadecimal digit, as `int(_, 16)` reads it (a non-digit
would raise in Python; the total model maps it to 0, never exercised on the
constants of the source). -/
def hexDigitVal (c : Char) : Nat :=
  if '0' ≤ c ∧ c ≤ '9' then c.toNat - 48
  else if 'a' ≤ c ∧ c ≤ 'f' then c.toNat - 87
  else if 'A' ≤ c ∧ c ≤ 'F' then c.toNat - 55
  else 0

/-- `hex_to_rgb`: strip leading `#` and read three two-digit hex channels. -/
def hex_to_rgb (s : String) : Nat × Nat × Nat :=
  let ds := s.data.dropWhile (fun c => c == '#')
  let at2 := fun i => hexDigitVal (ds.getD i '0') * 16 + hexDigitVal (ds.getD (i+1) '0')
  (at2 0, at2 2, at2 4)

/-- Python `str.split` at every character satisfying `p`, keeping empty
pieces (the behavior of `split(sep)` with an explicit separator). -/
def pySplitPred (p : Char → Bool) (l : List Char) : List (List Char) :=
  l.foldr (fun c acc => if p c then [] :: acc else (c :: acc.headD []) :: acc.tail) [[]]

/-- Python `s.split(sep)` for a one-character separator. -/
def pySplit (sep : Char) (s : String) : List String :=
  (pySplitPred (fun c => c == sep) s.data).map fun g => ⟨g⟩

/-- Python `s.lower()` (ASCII suffices for the format strings involved). -/
def pyLower (s : String) : String := ⟨s.data.map Char.toLower⟩

/-- Python `s.upper()`. -/
def pyUpper (s : String) : String := ⟨s.data.map Char.toUpper⟩

/-- Join a token list with single spaces, the shape in which the wrap loop
accumulates its current line. -/
def joinWords : List String → String
  | [] => ""
  | [w] => w
  | w :: ws => w ++ " " ++ joinWords ws

/-- Loop body of `wrap_arabic_text`: fold over the `' '`-separated tokens,
extending the current line while the measured width of the candidate stays
within `maxWidth`, flushing the non-empty current line otherwise. -/
def wrapLoopArabic (measure : String → Int) (maxWidth : Int)
    (lines : List String) (current : String) : List String → List String
  | [] => if current ≠ "" then lines ++ [current] else lines
  | word :: ws =>
    let test := current ++ (if current ≠ "" then " " else "") ++ word
    if measure test ≤ maxWidth then
      wrapLoopArabic measure maxWidth lines test ws
    else
      wrapLoopArabic measure maxWidth
        (if current ≠ "" then lines ++ [current] else lines) word ws

/-- `wrap_arabic_text(text, font, max_width, draw)`; the `(font, draw)` pair
is represented by the width-measuring function `measure`
(`s ↦ bbox[2] - bbox[0]` of `draw.textbbox((0,0), s, font=font)`). -/
def wrap_arabic_text (text : String) (measure : String → Int) (maxWidth : Int) :
    List String :=
  wrapLoopArabic measure maxWidth [] "" (pySplit ' ' text)

/-- Loop body of `wrap_english_text`; textually identical to the Arabic one
in the source. -/
def wrapLoopEnglish (measure : String → Int) (maxWidth : Int)
    (lines : List String) (current : String) : List String → List String
  | [] => if current ≠ "" then lines ++ [current] else lines
  | word :: ws =>
    let test := current ++ (if current ≠ "" then " " else "") ++ word
    if measure test ≤ maxWidth then
      wrapLoopEnglish measure maxWidth lines test ws
    else
      wrapLoopEnglish measure maxWidth
        (if current ≠ "" then lines ++ [current] else lines) word ws

/-- `wrap_english_text(text, font, max_width, draw)`. -/
def wrap_english_text (text : String) (measure : String → Int) (maxWidth : Int) :
    List String :=
  wrapLoopEnglish measure maxWidth [] "" (pySplit ' ' text)

/-- `len(s.split())`: Python `str.split()` splits on whitespace runs and
drops empty pieces. -/
def pythonWordCount (s : String) : Nat :=
  ((pySplitPred (fun c => c.isWhitespace) s.data).filter (fun w => w ≠ [])).length

/-- The responsive font sizing chosen by `generate_ayah_image`; `scaleNum`
holds ten times the Python `scale` float (8, 9, 10 for 0.8, 0.9, 1.0). -/
structure FontSizing where
  arabicFontSize : Nat
  translationFontSize : Nat
  scaleNum : Nat
deriving DecidableEq, Repr

/-- The tier selection of `generate_ayah_image` (lines 498-509):
`if arabic_word_count > 30 or translation_word_count > 60`, then
`elif arabic_word_count > 20 or translation_word_count > 40`, else large. -/
def responsiveFontSizing (arabic_word_count translation_word_count : Nat) :
    FontSizing :=
  if arabic_word_count > 30 ∨ translation_word_count > 60 then ⟨84, 48, 8⟩
  else if arabic_word_count > 20 ∨ translation_word_count > 40 then ⟨96, 57, 9⟩
  else ⟨108, 66, 10⟩

/-- A PIL font handle: either a loaded truetype font at a size, or the
built-in bitmap font returned by `ImageFont.load_default()`. -/
inductive FontHandle where
  | truetype (path : String) (size : Nat)
  | builtinDefault
deriving DecidableEq, Repr

/-- Candidate list of `get_font`. -/
def font_options : List String :=
  ["InstrumentSerif-Regular.ttf",
   "Inter-VariableFont_opsz,wght.ttf",
   "Arial.ttf",
   "Helvetica.ttf",
   "DejaVuSans.ttf"]

/-- Candidate list of `get_arabic_font`. -/
def arabic_font_options : List String :=
  ["AmiriQuran-Regular.ttf",
   "PlaypenSansArabic-VariableFont_wght.ttf",
   "NotoNaskhArabic-Regular.ttf",
   "ScheherazadeNew-Regular.ttf",
   "Traditional Arabic.ttf",
   "Arial.ttf"]

/-- `get_font(size)`: first loop returns the first candidate whose file
exists under `fonts/` and loads; second loop tries a bare-name system
lookup; finally `ImageFont.load_default()`.  `fsExists` and `truetypeOk`
are the state of the filesystem at the moment of the call (the unused
`bold` parameter of the source is omitted). -/
def get_font (size : Nat) (fsExists truetypeOk : String → Bool) : FontHandle :=
  match font_options.find?
      (fun n => fsExists ("fonts/" ++ n) && truetypeOk ("fonts/" ++ n)) with
  | some n => .truetype ("fonts/" ++ n) size
  | none =>
    match font_options.find? (fun n => truetypeOk n) with
    | some n => .truetype n size
    | none => .builtinDefault

/-- `get_arabic_font(size)`: same resolution over the Arabic candidates. -/
def get_arabic_font (size : Nat) (fsExists truetypeOk : String → Bool) : FontHandle :=
  match arabic_font_options.find?
      (fun n => fsExists ("fonts/" ++ n) && truetypeOk ("fonts/" ++ n)) with
  | some n => .truetype ("fonts/" ++ n) size
  | none =>
    match arabic_font_options.find? (fun n => truetypeOk n) with
    | some n => .truetype n size
    | none => .builtinDefault

/-- A pixel with red, green, blue and alpha channels (`Nat` per band; PIL
bands are 0..255). -/
structure RGBA where
  r : Nat
  g : Nat
  b : Nat
  a : Nat
deriving DecidableEq, Repr

/-- A PIL `RGBA` image: fixed dimensions and a pixel function. -/
structure PILImage where
  width : Nat
  height : Nat
  pixel : Nat → Nat → RGBA

/-- `Image.new('RGBA', (w, h), c)`. -/
def PILImage.new (w h : Nat) (c : RGBA) : PILImage := ⟨w, h, fun _ _ => c⟩

/-- Integer model of PIL's per-band mask blend `fg*α + bg*(255-α)` used by
`paste(..., mask=...)`. -/
def blendPx (bg fg : RGBA) (a : Nat) : RGBA :=
  ⟨(fg.r * a + bg.r * (255 - a)) / 255,
   (fg.g * a + bg.g * (255 - a)) / 255,
   (fg.b * a + bg.b * (255 - a)) / 255,
   (fg.a * a + bg.a * (255 - a)) / 255⟩

/-- `base.paste(overlay, (px, py)[, mask])`: the overlay is written into the
base rectangle starting at `(px, py)` (clipped to the base), replacing
pixels when `mask = none` and mask-blending otherwise; the mask function is
given in overlay coordinates.  Dimensions of the base are unchanged. -/
def PILImage.paste (base overlay : PILImage) (px py : Int)
    (mask : Option (Nat → Nat → Nat)) : PILImage :=
  { base with pixel := fun x y =>
      if (px ≤ (x : Int) ∧ (x : Int) < px + overlay.width ∧
          py ≤ (y : Int) ∧ (y : Int) < py + overlay.height) then
        let ox := ((x : Int) - px).toNat
        let oy := ((y : Int) - py).toNat
        let fg := overlay.pixel ox oy
        match mask with
        | none => fg
        | some m => blendPx (base.pixel x y) fg (m ox oy)
      else base.pixel x y }

/-- `img.putalpha(mask)`: replace the alpha band. -/
def PILImage.putalpha (img : PILImage) (mask : Nat → Nat → Nat) : PILImage :=
  { img with pixel := fun x y =>
      let p := img.pixel x y
      ⟨p.r, p.g, p.b, mask x y⟩ }

/-- Integer model of `Image.alpha_composite` (in-place, at the origin):
source-over blending of `over` onto `base` wherever `over` covers. -/
def PILImage.alphaComposite (base over : PILImage) : PILImage :=
  { base with pixel := fun x y =>
      if x < over.width ∧ y < over.height then
        blendPx (base.pixel x y) (over.pixel x y) ((over.pixel x y).a)
      else base.pixel x y }

/-- `img.crop((x0, y0, x1, y1))`. -/
def PILImage.crop (img : PILImage) (x0 y0 x1 y1 : Nat) : PILImage :=
  ⟨x1 - x0, y1 - y0, fun x y => img.pixel (x0 + x) (y0 + y)⟩

/-- `img.resize((w, h), Image.LANCZOS)`; Lanczos resampling is modelled by
coordinate sampling — no theorem below depends on resampled pixel values. -/
def PILImage.resize (img : PILImage) (w h : Nat) : PILImage :=
  ⟨w, h, fun x y => img.pixel (x * img.width / w) (y * img.height / h)⟩

/-- `ImageEnhance.Brightness(img).enhance(factorNum/factorDen)`: scale the
color bands, keep alpha. -/
def PILImage.enhanceBrightness (img : PILImage) (factorNum factorDen : Nat) :
    PILImage :=
  { img with pixel := fun x y =>
      let p := img.pixel x y
      ⟨min 255 (p.r * factorNum / factorDen),
       min 255 (p.g * factorNum / factorDen),
       min 255 (p.b * factorNum / factorDen),
       p.a⟩ }

/-- Membership in a filled rounded rectangle with corners `(x0,y0)`-`(x1,y1)`
and radius `r`: inside the box and, within each corner square, within the
quarter-disc. -/
def withinRoundedRect (x0 y0 x1 y1 r px py : Int) : Prop :=
  x0 ≤ px ∧ px ≤ x1 ∧ y0 ≤ py ∧ py ≤ y1 ∧
  (px < x0 + r ∧ py < y0 + r →
    (px - (x0 + r))^2 + (py - (y0 + r))^2 ≤ r^2) ∧
  (px > x1 - r ∧ py < y0 + r →
    (px - (x1 - r))^2 + (py - (y0 + r))^2 ≤ r^2) ∧
  (px < x0 + r ∧ py > y1 - r →
    (px - (x0 + r))^2 + (py - (y1 - r))^2 ≤ r^2) ∧
  (px > x1 - r ∧ py > y1 - r →
    (px - (x1 - r))^2 + (py - (y1 - r))^2 ≤ r^2)

instance (x0 y0 x1 y1 r px py : Int) :
    Decidable (withinRoundedRect x0 y0 x1 y1 r px py) := by
  unfold withinRoundedRect; infer_instance

/-- `draw.rounded_rectangle([...], radius, fill)`: in `RGBA` mode PIL's draw
replaces covered pixels with the fill color. -/
def PILImage.drawRoundedRect (img : PILImage) (x0 y0 x1 y1 : Int) (radius : Int)
    (fill : RGBA) : PILImage :=
  { img with pixel := fun x y =>
      if (withinRoundedRect x0 y0 x1 y1 radius x y) then fill
      else img.pixel x y }

/-- `draw.rounded_rectangle([...], radius, outline, width)`: paint the
border band (inside the rounded rectangle but not inside it shrunk by the
stroke width). -/
def PILImage.drawRoundedRectOutline (img : PILImage) (x0 y0 x1 y1 : Int)
    (radius : Int) (outline : RGBA) (strokeWidth : Int) : PILImage :=
  { img with pixel := fun x y =>
      if (withinRoundedRect x0 y0 x1 y1 radius x y ∧
          ¬ withinRoundedRect (x0 + strokeWidth) (y0 + strokeWidth)
             (x1 - strokeWidth) (y1 - strokeWidth) (radius - strokeWidth) x y)
      then outline else img.pixel x y }

/-- `draw.line([(xa, ya), (xb, yb)], fill, width)`; the source only draws
horizontal segments, modelled as a band of the given stroke width. -/
def PILImage.drawLine (img : PILImage) (xa ya xb yb : Int) (fill : RGBA)
    (strokeWidth : Int) : PILImage :=
  { img with pixel := fun x y =>
      if (min xa xb ≤ (x : Int) ∧ (x : Int) ≤ max xa xb ∧
          min ya yb ≤ (y : Int) ∧ (y : Int) < max ya yb + strokeWidth) then fill
      else img.pixel x y }

/-- `draw.ellipse([...], fill)`: filled disc inscribed in the bounding box
(the source only draws circles of radius `dot_size`). -/
def PILImage.drawEllipse (img : PILImage) (x0 y0 x1 y1 : Int) (fill : RGBA) :
    PILImage :=
  { img with pixel := fun x y =>
      if (2*(x : Int) - (x0 + x1))^2 + (2*(y : Int) - (y0 + y1))^2 ≤
         (x1 - x0)^2 then fill
      else img.pixel x y }

/-- `draw.text((x, y), text, fill, font)`: the rasterized glyph coverage is
external to the model and supplied by the `glyph` oracle (in text-box
coordinates); covered pixels take the fill color. -/
def PILImage.drawText (img : PILImage)
    (glyph : FontHandle → String → Nat → Nat → Bool) (font : FontHandle)
    (x y : Int) (text : String) (fill : RGBA) : PILImage :=
  { img with pixel := fun px py =>
      if x ≤ (px : Int) ∧ y ≤ (py : Int) ∧
         glyph font text ((px : Int) - x).toNat ((py : Int) - y).toNat = true
      then fill else img.pixel px py }

/-- `create_rounded_rectangle_mask(size, radius)` as an alpha mask function:
255 inside the rounded rectangle `[(0,0), (w-1, h-1)]`, 0 outside. -/
def create_rounded_rectangle_mask (w h r : Nat) : Nat → Nat → Nat :=
  fun x y =>
    if (x < w ∧ y < h ∧
        withinRoundedRect 0 0 ((w : Int) - 1) ((h : Int) - 1) r x y)
    then 255 else 0

/-- The curated `_NATURE_IMAGES` URL catalog, verbatim. -/
def _NATURE_IMAGES : List String :=
  ["https://images.unsplash.com/photo-1464822759023-fed622ff2c3b?auto=format&fit=crop&w=2400&q=85",
   "https://images.unsplash.com/photo-1506905925346-21bda4d32df4?auto=format&fit=crop&w=2400&q=85",
   "https://images.unsplash.com/photo-1519681393784-d120267933ba?auto=format&fit=crop&w=2400&q=85",
   "https://images.unsplash.com/photo-1454496522488-7a8e488e8606?auto=format&fit=crop&w=2400&q=85",
   "https://images.unsplash.com/photo-1486870591958-9b9d0d1dda99?auto=format&fit=crop&w=2400&q=85",
   "https://images.unsplash.com/photo-1511593358241-7eea1f3c84e5?auto=format&fit=crop&w=2400&q=85",
   "https://images.unsplash.com/photo-1458668383970-8ddd3927deed?auto=format&fit=crop&w=2400&q=85",
   "https://images.unsplash.com/photo-1501854140801-50d01698950b?auto=format&fit=crop&w=2400&q=85",
   "https://images.unsplash.com/photo-1470071459604-3b5ec3a7fe05?auto=format&fit=crop&w=2400&q=85",
   "https://images.unsplash.com/photo-1441974231531-c6227db76b6e?auto=format&fit=crop&w=2400&q=85",
   "https://images.unsplash.com/photo-1425913397330-cf8af2ff40a1?auto=format&fit=crop&w=2400&q=85",
   "https://images.unsplash.com/photo-1448375240586-882707db888b?auto=format&fit=crop&w=2400&q=85",
   "https://images.unsplash.com/photo-1542273917363-3b1817f69a2d?auto=format&fit=crop&w=2400&q=85",
   "https://images.unsplash.com/photo-1473448912268-2022ce9509d8?auto=format&fit=crop&w=2400&q=85",
   "https://images.unsplash.com/photo-1447752875215-b2761acb3c5d?auto=format&fit=crop&w=2400&q=85",
   "https://images.unsplash.com/photo-1506744038d36-0831d10ca9ce?auto=format&fit=crop&w=2400&q=85",
   "https://images.unsplash.com/photo-1472214103451-9374bd1c798e?auto=format&fit=crop&w=2400&q=85",
   "https://images.unsplash.com/photo-1434725039720-abb26e22ebe8?auto=format&fit=crop&w=2400&q=85",
   "https://images.unsplash.com/photo-1505765050516-f72dcac9c60e?auto=format&fit=crop&w=2400&q=85",
   "https://images.unsplash.com/photo-1469474968028-56623f02e42e?auto=format&fit=crop&w=2400&q=85",
   "https://images.unsplash.com/photo-1534088568595-a066f410bcda?auto=format&fit=crop&w=2400&q=85",
   "https://images.unsplash.com/photo-1507400492013-162706c8c05e?auto=format&fit=crop&w=2400&q=85",
   "https://images.unsplash.com/photo-1496568816309-51d7c20e3b21?auto=format&fit=crop&w=2400&q=85",
   "https://images.unsplash.com/photo-1504608524841-42fe6f032b4b?auto=format&fit=crop&w=2400&q=85",
   "https://images.unsplash.com/photo-1518837695005-2083093ee35b?auto=format&fit=crop&w=2400&q=85",
   "https://images.unsplash.com/photo-1532274402911-5a33904d2824?auto=format&fit=crop&w=2400&q=85",
   "https://images.unsplash.com/photo-1495616811223-4d98c6e9c869?auto=format&fit=crop&w=2400&q=85",
   "https://images.unsplash.com/photo-1500534314209-a25ddb2bd429?auto=format&fit=crop&w=2400&q=85",
   "https://images.unsplash.com/photo-1495567720989-cebdbdd97913?auto=format&fit=crop&w=2400&q=85",
   "https://images.unsplash.com/photo-1505118380757-91f5f5632de0?auto=format&fit=crop&w=2400&q=85",
   "https://images.unsplash.com/photo-1498837167922-ddd27525d352?auto=format&fit=crop&w=2400&q=85",
   "https://images.unsplash.com/photo-1507525428034-b723cf961d3e?auto=format&fit=crop&w=2400&q=85",
   "https://images.unsplash.com/photo-1468413253725-0d5181091126?auto=format&fit=crop&w=2400&q=85",
   "https://images.unsplash.com/photo-1509316785289-025f5b846b35?auto=format&fit=crop&w=2400&q=85",
   "https://images.unsplash.com/photo-1473580044384-7ba9967e16a0?auto=format&fit=crop&w=2400&q=85",
   "https://images.unsplash.com/photo-1509316975850-ff9c5deb0cd9?auto=format&fit=crop&w=2400&q=85",
   "https://images.unsplash.com/photo-1542401886-65d6c61db217?auto=format&fit=crop&w=2400&q=85",
   "https://images.unsplash.com/photo-1419242902214-272b3f66ee7a?auto=format&fit=crop&w=2400&q=85",
   "https://images.unsplash.com/photo-1506318137071-a8e063b4bec0?auto=format&fit=crop&w=2400&q=85",
   "https://images.unsplash.com/photo-1462331940025-496dfbfc7564?auto=format&fit=crop&w=2400&q=85",
   "https://images.unsplash.com/photo-1507400492013-162706c8c05e?auto=format&fit=crop&w=2400&q=85"]

/-- `url.split('/')[-1].split('?')[0]`: the cache key (`img_id`) derived
from a catalog URL. -/
def imageId (url : String) : String :=
  (pySplit '?' (((pySplit '/' url).getLast?).getD "")).headD ""

/-- The procedural dark-gradient fallback of `get_unsplash_image`: a
`(15, 23, 42, 255)` base with every row `y < height` redrawn at alpha
`int(255 * (1 - y/height * 0.5))`, modelled exactly as
`255*(2*height - y) / (2*height)`. -/
def fallbackGradient (width height : Nat) : PILImage :=
  ⟨width, height, fun _ y =>
    if y < height then ⟨15, 23, 42, 255 * (2 * height - y) / (2 * height)⟩
    else ⟨15, 23, 42, 255⟩⟩

/-- What one call to `get_unsplash_image` did: the image it returned,
whether it issued a `requests.get`, and the cache key it stored to (if the
fetch succeeded). -/
structure BgOutcome where
  image : PILImage
  attemptedFetch : Bool
  storedKey : Option String

/-- `get_unsplash_image(width, height, query)`.  The `query` parameter of
the source is unused by its body and omitted.  `cache` is the state of the
`bg_cache` directory (`none` also covers an unreadable cached file, whose
`except: pass` falls through to the fetch), `net` the network
(`requests.get` returning an HTTP-200 image), `choice` the value of
`random.choice` as an index into the catalog. -/
def get_unsplash_image (width height : Nat)
    (cache net : String → Option PILImage) (choice : Nat) : BgOutcome :=
  let img_url := _NATURE_IMAGES.getD (choice % _NATURE_IMAGES.length) ""
  let img_id := imageId img_url
  match cache img_id with
  | some img => ⟨img.resize width height, false, none⟩
  | none =>
    match net img_url with
    | some img => ⟨img.resize width height, true, some img_id⟩
    | none => ⟨fallbackGradient width height, true, none⟩

/-- The external oracles a render consults; all of them are read-only
during the render. -/
structure RenderEnv where
  fsExists : String → Bool
  truetypeOk : String → Bool
  textbbox : FontHandle → String → Int × Int × Int × Int
  glyph : FontHandle → String → Nat → Nat → Bool
  gaussianBlur : Nat → PILImage → Nat → Nat → RGBA
  bgCache : String → Option PILImage
  bgNet : String → Option PILImage
  bgChoice : Nat

/-- Width of `draw.textbbox((0,0), s, font)` under the metrics oracle. -/
def RenderEnv.textWidth (env : RenderEnv) (font : FontHandle) (s : String) : Int :=
  (env.textbbox font s).2.2.1 - (env.textbbox font s).1

/-- Height of `draw.textbbox((0,0), s, font)`. -/
def RenderEnv.textHeight (env : RenderEnv) (font : FontHandle) (s : String) : Int :=
  (env.textbbox font s).2.2.2 - (env.textbbox font s).2.1

/-- `img.filter(ImageFilter.GaussianBlur(radius))`: content from the blur
oracle, dimensions preserved (a property of PIL's filter). -/
def applyGaussianBlur (env : RenderEnv) (radius : Nat) (img : PILImage) : PILImage :=
  ⟨img.width, img.height, env.gaussianBlur radius img⟩

/-- `create_shadow(width, height, radius, blur, opacity, offset_x, offset_y)`:
an expanded transparent canvas, a filled rounded rectangle at the offset,
then a Gaussian blur. -/
def create_shadow (env : RenderEnv) (width height : Nat)
    (radius blur opacity : Nat) (offset_x offset_y : Int) : PILImage :=
  let expand := blur * 3
  let shadow_width := width + expand * 2
  let shadow_height := height + expand * 2
  let shadow := PILImage.new shadow_width shadow_height ⟨0, 0, 0, 0⟩
  let shadow := shadow.drawRoundedRect
    ((expand : Int) + offset_x) ((expand : Int) + offset_y)
    ((expand : Int) + width - 1 + offset_x) ((expand : Int) + height - 1 + offset_y)
    radius ⟨0, 0, 0, opacity⟩
  applyGaussianBlur env blur shadow

/-- The input of one render, as assembled by the HTTP layer
(`generate_ayah_image`'s parameter list). -/
structure RenderRequest where
  arabic_text : String
  translation_text : String
  surah_name : String
  surah_number : Nat
  ayah_number : Nat
  surah_english_name : String
  surah_translation : String
  total_ayahs : Nat
  edition_name : String
  square : Bool
  portrait : Bool
  style : String

/-- The card-dimension selection at the top of `generate_ayah_image`:
`if portrait: ... elif square: ... else: ...`. -/
def cardDimensions (square portrait : Bool) : Nat × Nat :=
  if portrait then (PORTRAIT_WIDTH, PORTRAIT_HEIGHT)
  else if square then (SQUARE_CARD_SIZE, SQUARE_CARD_SIZE)
  else (CARD_WIDTH, CARD_HEIGHT)

/-- Turn an RGB triple into an opaque (or given-alpha) RGBA fill. -/
def rgbaOf (c : Nat × Nat × Nat) (alpha : Nat) : RGBA := ⟨c.1, c.2.1, c.2.2, alpha⟩

/-- The classic warm gradient card: the per-row `draw.line` loop of the
source in closed form — row `y` of `h` interpolates each channel from
`gradient_start` to `gradient_end` (float interpolation plus `int()`
modelled by exact integer arithmetic), alpha 255. -/
def classicGradientCard (w h : Nat) : PILImage :=
  let gs := hex_to_rgb COLORS_gradient_start
  let ge := hex_to_rgb COLORS_gradient_end
  let chan := fun (s e : Nat) (y : Nat) =>
    ((s : Int) + ((e : Int) - (s : Int)) * y / h).toNat
  ⟨w, h, fun _ y =>
    if y < h then ⟨chan gs.1 ge.1 y, chan gs.2.1 ge.2.1 y, chan gs.2.2 ge.2.2 y, 255⟩
    else ⟨0, 0, 0, 0⟩⟩

/-- The nature-style glass panel (source lines 433-483): crop the backdrop
behind the panel, downsample it to 1/4 linear size, blur, upsample,
darken, paste under a rounded mask, alpha-composite a dark tint and draw
the two frosted borders.  The card's dimensions are unchanged. -/
def glassPanel (env : RenderEnv) (bg card : PILImage) (card_width card_height : Nat) :
    PILImage :=
  let panel_margin := card_width * 4 / 100
  let panel_top := 50
  let pr0 := panel_margin
  let pr1 := panel_top
  let pr2 := card_width - panel_margin
  let pr3 := card_height - card_height * 8 / 100
  let panel_radius : Int := 60
  let pw := pr2 - pr0
  let ph := pr3 - pr1
  let panel_mask := create_rounded_rectangle_mask pw ph 60
  let panel_bg := bg.crop pr0 pr1 pr2 pr3
  let panel_small := panel_bg.resize (pw / 4) (ph / 4)
  let panel_blur_small := applyGaussianBlur env 10 panel_small
  let panel_blur := panel_blur_small.resize pw ph
  let panel_blur := panel_blur.enhanceBrightness 65 100
  let card := card.paste panel_blur pr0 pr1 (some panel_mask)
  let glass_layer := PILImage.new pw ph ⟨0, 0, 0, 0⟩
  let glass_layer := glass_layer.drawRoundedRect 0 0 pw ph panel_radius ⟨15, 20, 35, 120⟩
  let temp_canvas := card.crop pr0 pr1 pr2 pr3
  let temp_canvas := temp_canvas.alphaComposite glass_layer
  let card := card.paste temp_canvas pr0 pr1 (some panel_mask)
  let card := card.drawRoundedRectOutline pr0 pr1 pr2 pr3 panel_radius ⟨255, 255, 255, 70⟩ 2
  let card := card.drawRoundedRectOutline ((pr0 : Int) + 3) ((pr1 : Int) + 3)
    ((pr2 : Int) - 3) ((pr3 : Int) - 3) (panel_radius - 2) ⟨255, 255, 255, 25⟩ 1
  card

/-- The per-line drawing loops of `generate_ayah_image` (Arabic block and
translation block): measure each line, center it horizontally, draw it and
advance `current_y` by the line height. -/
def drawLinesCentered (env : RenderEnv) (font : FontHandle) (fill : RGBA)
    (card_width : Int) (line_height : Int) :
    PILImage → Int → List String → PILImage × Int
  | img, y, [] => (img, y)
  | img, y, line :: rest =>
    let line_width := env.textWidth font line
    let line_x := (card_width - line_width) / 2
    drawLinesCentered env font fill card_width line_height
      (img.drawText env.glyph font line_x y line fill) (y + line_height) rest

/-- `generate_ayah_image(...)`: the full compositing pipeline of the
source, as a pure function of the request and the external oracles.
Quantities Python computes with `//` or `int(float)` are nonnegative at
every use with the constants of the source, where all integer-division
conventions agree.  The `let`-rebindings mirror the source's sequential
mutation of `card` and `current_y`. -/
def generate_ayah_image (env : RenderEnv) (req : RenderRequest) : PILImage :=
  let card_width := (cardDimensions req.square req.portrait).1
  let card_height := (cardDimensions req.square req.portrait).2
  let canvas_width := card_width + SHADOW_EXPAND * 2
  let canvas_height := card_height + SHADOW_EXPAND * 2
  let accent_rgb := hex_to_rgb COLORS_accent
  let text_primary_rgb := hex_to_rgb COLORS_text_primary
  let text_secondary_rgb := hex_to_rgb COLORS_text_secondary
  let gold_rgb := hex_to_rgb COLORS_gold
  let shadow := create_shadow env card_width card_height CORNER_RADIUS
    SHADOW_BLUR SHADOW_OPACITY (SHADOW_OFFSET_X : Int) (SHADOW_OFFSET_Y : Int)
  let img := PILImage.new canvas_width canvas_height ⟨0, 0, 0, 0⟩
  let shadow_x : Int := (SHADOW_EXPAND : Int) - (SHADOW_BLUR : Int) * 2
  let shadow_y : Int := (SHADOW_EXPAND : Int) - (SHADOW_BLUR : Int) * 2
  let img := img.paste shadow shadow_x shadow_y (some (fun x y => (shadow.pixel x y).a))
  let card := PILImage.new card_width card_height ⟨0, 0, 0, 0⟩
  let natureBg := (get_unsplash_image card_width card_height env.bgCache env.bgNet env.bgChoice).image
  -- the style branch of the source sets the card background and the three
  -- text colors together; it is split here into one `if` per binding
  let card := if req.style = "nature" then
      let c := card.paste natureBg 0 0 none
      c.alphaComposite (PILImage.new card_width card_height ⟨0, 0, 0, 100⟩)
    else classicGradientCard card_width card_height
  let text_color : RGBA := if req.style = "nature" then ⟨255, 255, 255, 255⟩
    else rgbaOf text_primary_rgb 255
  let secondary_text_color : RGBA := if req.style = "nature" then ⟨220, 220, 220, 255⟩
    else rgbaOf text_secondary_rgb 255
  let divider_color : RGBA := if req.style = "nature" then ⟨255, 255, 255, 120⟩
    else rgbaOf gold_rgb 180
  let mask := create_rounded_rectangle_mask card_width card_height CORNER_RADIUS
  let card := card.putalpha mask
  let card := if req.style = "nature" then
      glassPanel env natureBg card card_width card_height
    else card
  let margin_x : Int := 120
  let margin_top : Int := 90
  let margin_bottom : Int := 120
  let content_width : Int := (card_width : Int) - 2 * margin_x
  let current_y : Int := margin_top
  let arabic_word_count := pythonWordCount req.arabic_text
  let translation_word_count :=
    if req.translation_text ≠ "" then pythonWordCount req.translation_text else 0
  let sizing := responsiveFontSizing arabic_word_count translation_word_count
  let badge_font := get_font (42 * sizing.scaleNum / 10) env.fsExists env.truetypeOk
  let name_part := if req.surah_english_name ≠ "" then req.surah_english_name
    else "Surah " ++ toString req.surah_number
  let name_part := if req.surah_english_name ≠ "" ∧ req.surah_translation ≠ "" then
      req.surah_english_name ++ " (" ++ req.surah_translation ++ ")"
    else name_part
  let ayah_part := if req.total_ayahs > 0 then
      "Ayah " ++ toString req.ayah_number ++ "/" ++ toString req.total_ayahs
    else "Ayah " ++ toString req.ayah_number
  let badge_text := name_part ++ "  •  " ++ ayah_part
  let badge_width := env.textWidth badge_font badge_text
  let badge_height := env.textHeight badge_font badge_text
  let badge_x := ((card_width : Int) - badge_width) / 2
  let badge_padding_x : Int := 42
  let badge_padding_y : Int := 18
  let pill_height := badge_height + badge_padding_y * 2
  let card := card.drawRoundedRect (badge_x - badge_padding_x) current_y
    (badge_x + badge_width + badge_padding_x) (current_y + pill_height)
    (pill_height / 2) (rgbaOf accent_rgb 255)
  let card := card.drawText env.glyph badge_font badge_x
    (current_y + badge_padding_y - 2) badge_text ⟨255, 255, 255, 255⟩
  let current_y := current_y + pill_height + ((40 * sizing.scaleNum / 10 : Nat) : Int)
  let arabic_font := get_arabic_font sizing.arabicFontSize env.fsExists env.truetypeOk
  let arabic_lines := wrap_arabic_text req.arabic_text
    (env.textWidth arabic_font) content_width
  let arabic_line_height : Int := ((sizing.arabicFontSize * 18 / 10 : Nat) : Int)
  let translation_font := get_font sizing.translationFontSize env.fsExists env.truetypeOk
  let trans_lines := if req.translation_text ≠ "" then
      wrap_english_text req.translation_text (env.textWidth translation_font) content_width
    else []
  let arabic_block_height := (arabic_lines.length : Int) * arabic_line_height
  let translation_line_height : Int := ((sizing.translationFontSize * 15 / 10 : Nat) : Int)
  let translation_block_height := if trans_lines ≠ [] then
      (trans_lines.length : Int) * translation_line_height
    else 0
  let divider_spacing : Int := ((80 * sizing.scaleNum / 10 : Nat) : Int)
  let total_content := arabic_block_height + divider_spacing + translation_block_height
  let available_height := (card_height : Int) - current_y - margin_bottom - 50
  let current_y := if total_content < available_height then
      current_y + (available_height - total_content) / 3
    else current_y
  let arabicDrawn := drawLinesCentered env arabic_font text_color (card_width : Int)
    arabic_line_height card current_y arabic_lines
  let card := arabicDrawn.1
  let current_y := arabicDrawn.2
  let current_y := current_y + ((100 * sizing.scaleNum / 10 : Nat) : Int)
  let separator_padding : Int := ((120 * sizing.scaleNum / 10 : Nat) : Int)
  let separator_thickness : Int := 2
  let card := card.drawLine (margin_x + separator_padding) current_y
    ((card_width : Int) - margin_x - separator_padding) current_y
    divider_color separator_thickness
  let dot_size : Int := 4
  let card := card.drawEllipse (margin_x + separator_padding - dot_size)
    (current_y - dot_size) (margin_x + separator_padding + dot_size)
    (current_y + dot_size) divider_color
  let card := card.drawEllipse ((card_width : Int) - margin_x - separator_padding - dot_size)
    (current_y - dot_size) ((card_width : Int) - margin_x - separator_padding + dot_size)
    (current_y + dot_size) divider_color
  let current_y := current_y + ((100 * sizing.scaleNum / 10 : Nat) : Int)
  let card := if req.translation_text ≠ "" ∧ trans_lines ≠ [] then
      (drawLinesCentered env translation_font secondary_text_color (card_width : Int)
        translation_line_height card current_y trans_lines).1
    else card
  let footer_y : Int := (card_height : Int) - 75
  let footer_font := get_font 30 env.fsExists env.truetypeOk
  let footer_text := "Quran Reader  •  islam-llm.app"
  let footer_width := env.textWidth footer_font footer_text
  let footer_x := ((card_width : Int) - footer_width) / 2
  let footer_fill : RGBA := if req.style = "nature" then
      rgbaOf (hex_to_rgb "#ffffff") 150
    else rgbaOf text_secondary_rgb 150
  let card := card.drawText env.glyph footer_font footer_x footer_y footer_text footer_fill
  let card_x : Int := (SHADOW_EXPAND : Int)
  let card_y : Int := (SHADOW_EXPAND : Int)
  let img := img.paste card card_x card_y (some (fun x y => (card.pixel x y).a))
  img

/-- The serialized output of `generate_ayah_image_bytes`: a PNG keeps the
full `RGBA` image (alpha intact); a JPEG holds only the three color bands
of the flattened image plus the quality setting. -/
inductive EncodedImage where
  | png (img : PILImage)
  | jpeg (width height : Nat) (pixel : Nat → Nat → Nat × Nat × Nat) (quality : Nat)

/-- Width of the encoded image. -/
def EncodedImage.width : EncodedImage → Nat
  | .png img => img.width
  | .jpeg w _ _ _ => w

/-- Height of the encoded image. -/
def EncodedImage.height : EncodedImage → Nat
  | .png img => img.height
  | .jpeg _ h _ _ => h

/-- Whether the encoded stream carries an alpha channel. -/
def EncodedImage.hasAlpha : EncodedImage → Bool
  | .png _ => true
  | .jpeg _ _ _ _ => false

/-- The JPEG quality setting, if any. -/
def EncodedImage.qualityOf : EncodedImage → Option Nat
  | .png _ => none
  | .jpeg _ _ _ q => q

/-- `rgb_img = Image.new('RGB', img.size, bg); rgb_img.paste(img,
mask=img.split()[3])`: flatten each pixel onto the opaque background using
its own alpha as the paste mask. -/
def flattenOnto (bg : Nat × Nat × Nat) (img : PILImage) :
    Nat → Nat → Nat × Nat × Nat :=
  fun x y =>
    let p := img.pixel x y
    ((p.r * p.a + bg.1 * (255 - p.a)) / 255,
     (p.g * p.a + bg.2.1 * (255 - p.a)) / 255,
     (p.b * p.a + bg.2.2 * (255 - p.a)) / 255)

/-- `generate_ayah_image_bytes(...)`: render, then encode.  Lowercased
`"jpg"`/`"jpeg"` flatten onto `(255, 247, 237)` and save as JPEG at
quality 95; every other format string saves as PNG with alpha intact. -/
def generate_ayah_image_bytes (env : RenderEnv) (req : RenderRequest)
    (format : String) : EncodedImage :=
  let img := generate_ayah_image env req
  if pyLower format = "jpg" ∨ pyLower format = "jpeg" then
    .jpeg img.width img.height (flattenOnto (255, 247, 237) img) 95
  else
    .png img

/-- The format normalization of the share endpoints in `main.py`:
`format.upper() if format.lower() in ["png", "jpeg", "jpg"] else "PNG"`. -/
def resolveImageFormat (format : String) : String :=
  if (["png", "jpeg", "jpg"].contains (pyLower format)) then pyUpper format
  else "PNG"

/-- Modelled from the spec: the claimed preprocessing of Arabic verse text
(`"apply the bidirectional algorithm to produce correct visual
(right-to-left) ordering before width measurement"`) is absent from the
source; for a string consisting entirely of one right-to-left run the
bidirectional algorithm's visual reordering is the character reversal. -/
def bidiVisualRTL (s : String) : String := ⟨s.data.reverse⟩

/-- A concrete oracle environment for closed evaluations: nothing on the
filesystem, empty cache, failing network, zero metrics. -/
def trivialEnv : RenderEnv :=
  ⟨fun _ => false, fun _ => false, fun _ _ => (0, 0, 0, 0), fun _ _ _ _ => false,
   fun _ img x y => img.pixel x y, fun _ => none, fun _ => none, 0⟩

/-- A concrete landscape classic request. -/
def reqClassic : RenderRequest :=
  ⟨"بسم الله", "In the name of Allah", "الفاتحة", 1, 1, "Al-Faatiha",
   "The Opening", 7, "quran-uthmani", false, false, "classic"⟩

/-- A landscape request differing from `reqClassic` in style and both
texts, but not in the aspect flags. -/
def reqNature : RenderRequest :=
  ⟨"الحمد لله رب العالمين", "", "الفاتحة", 1, 2, "Al-Faatiha",
   "The Opening", 7, "quran-uthmani", false, false, "nature"⟩

/-- A request with both the square and the portrait flag set. -/
def reqBothFlags : RenderRequest :=
  ⟨"بسم الله", "", "الفاتحة", 1, 1, "Al-Faatiha", "The Opening", 7,
   "quran-uthmani", true, true, "classic"⟩

/-- A request with an unrecognized style and empty required Arabic text. -/
def reqInvalid : RenderRequest :=
  ⟨"", "", "الفاتحة", 1, 1, "Al-Faatiha", "The Opening", 7,
   "quran-uthmani", false, false, "vaporwave"⟩

/-! ### Helper lemmas about the wrap loop -/

lemma joinWords_ne_empty {g : List String} (hne : g ≠ [])
    (hw : ∀ w ∈ g, w ≠ "") : joinWords g ≠ "" := by
  match g, hne with
  | [w], _ =>
    simpa [joinWords] using hw w (by simp)
  | w :: x :: t, _ =>
    show w ++ " " ++ joinWords (x :: t) ≠ ""
    intro hEq
    have hlen := congrArg String.length hEq
    simp [String.length_append] at hlen
    exact absurd hlen.1.2 (by decide)

lemma joinWords_append_singleton {g : List String} (hne : g ≠ []) (w : String) :
    joinWords (g ++ [w]) = joinWords g ++ " " ++ w := by
  match g, hne with
  | [a], _ => rfl
  | a :: b :: t, _ =>
    have ih := joinWords_append_singleton (g := b :: t) (by simp) w
    show a ++ " " ++ joinWords ((b :: t) ++ [w]) = (a ++ " " ++ joinWords (b :: t)) ++ " " ++ w
    rw [ih]
    simp [String.append_assoc]

lemma wrapLoop_eq (measure : String → Int) (maxW : Int) :
    ∀ (ws : List String) (lines : List String) (current : String),
      wrapLoopArabic measure maxW lines current ws =
        wrapLoopEnglish measure maxW lines current ws := by
  intro ws
  induction ws with
  | nil => intro lines current; rfl
  | cons w rest ih =>
    intro lines current
    show (let test := current ++ (if current ≠ "" then " " else "") ++ w
          if measure test ≤ maxW then wrapLoopArabic measure maxW lines test rest
          else wrapLoopArabic measure maxW
            (if current ≠ "" then lines ++ [current] else lines) w rest) =
         (let test := current ++ (if current ≠ "" then " " else "") ++ w
          if measure test ≤ maxW then wrapLoopEnglish measure maxW lines test rest
          else wrapLoopEnglish measure maxW
            (if current ≠ "" then lines ++ [current] else lines) w rest)
    by_cases hfit : measure (current ++ (if current ≠ "" then " " else "") ++ w) ≤ maxW <;>
      simp only [hfit, if_pos, if_neg, ite_true, ite_false] <;> apply ih

/-- Invariant of the greedy wrap loop: starting from a non-empty current
line that is the space-join of an already-accepted token group, the loop
emits exactly a partition of the remaining tokens into contiguous
non-empty groups, each group either fitting the maximum width or being a
single (over-wide) token. -/
lemma wrapLoopEnglish_partition (measure : String → Int) (maxW : Int) :
    ∀ (ws gcur : List String), gcur ≠ [] → (∀ w ∈ gcur, w ≠ "") →
      (∀ w ∈ ws, w ≠ "") →
      (measure (joinWords gcur) ≤ maxW ∨ ∃ w, gcur = [w]) →
      ∃ P : List (List String),
        P.flatten = gcur ++ ws ∧
        (∀ g ∈ P, g ≠ [] ∧ (∀ w ∈ g, w ≠ "") ∧
          (measure (joinWords g) ≤ maxW ∨ ∃ w, g = [w])) ∧
        (∀ lines, wrapLoopEnglish measure maxW lines (joinWords gcur) ws =
          lines ++ P.map joinWords) := by
  intro ws
  induction ws with
  | nil =>
    intro gcur hne hwords _ hcond
    refine ⟨[gcur], by simp, ?_, ?_⟩
    · intro g hg
      rw [List.mem_singleton] at hg
      subst hg
      exact ⟨hne, hwords, hcond⟩
    · intro lines
      show (if joinWords gcur ≠ "" then lines ++ [joinWords gcur] else lines) =
        lines ++ [joinWords gcur]
      rw [if_pos (joinWords_ne_empty hne hwords)]
  | cons w rest ih =>
    intro gcur hne hwords hws hcond
    have hw : w ≠ "" := hws w (by simp)
    have hrest : ∀ x ∈ rest, x ≠ "" := fun x hx => hws x (by simp [hx])
    have hcur : joinWords gcur ≠ "" := joinWords_ne_empty hne hwords
    have htest : joinWords gcur ++ (if joinWords gcur ≠ "" then " " else "") ++ w =
        joinWords (gcur ++ [w]) := by
      rw [if_pos hcur, joinWords_append_singleton hne w, String.append_assoc]
    by_cases hfit : measure (joinWords (gcur ++ [w])) ≤ maxW
    · have hwords' : ∀ x ∈ gcur ++ [w], x ≠ "" := by
        intro x hx
        rcases List.mem_append.mp hx with h | h
        · exact hwords x h
        · rw [List.mem_singleton] at h; subst h; exact hw
      obtain ⟨P, hflat, hprops, hloop⟩ :=
        ih (gcur ++ [w]) (by simp) hwords' hrest (Or.inl hfit)
      refine ⟨P, ?_, hprops, ?_⟩
      · rw [hflat, List.append_assoc, List.singleton_append]
      · intro lines
        show (let test := joinWords gcur ++ (if joinWords gcur ≠ "" then " " else "") ++ w
              if measure test ≤ maxW then wrapLoopEnglish measure maxW lines test rest
              else wrapLoopEnglish measure maxW
                (if joinWords gcur ≠ "" then lines ++ [joinWords gcur] else lines) w rest) =
          lines ++ P.map joinWords
        simp only [htest]
        rw [if_pos hfit]
        exact hloop lines
    · obtain ⟨P', hflat, hprops, hloop⟩ :=
        ih [w] (by simp) (by intro x hx; rw [List.mem_singleton] at hx; subst hx; exact hw)
          hrest (Or.inr ⟨w, rfl⟩)
      refine ⟨gcur :: P', ?_, ?_, ?_⟩
      · show gcur ++ P'.flatten = gcur ++ (w :: rest)
        rw [hflat, List.singleton_append]
      · intro g hg
        rcases List.mem_cons.mp hg with h | h
        · subst h; exact ⟨hne, hwords, hcond⟩
        · exact hprops g h
      · intro lines
        show (let test := joinWords gcur ++ (if joinWords gcur ≠ "" then " " else "") ++ w
              if measure test ≤ maxW then wrapLoopEnglish measure maxW lines test rest
              else wrapLoopEnglish measure maxW
                (if joinWords gcur ≠ "" then lines ++ [joinWords gcur] else lines) w rest) =
          lines ++ (gcur :: P').map joinWords
        simp only [htest]
        rw [if_neg hfit, if_pos hcur]
        have := hloop (lines ++ [joinWords gcur])
        rw [show joinWords [w] = w from rfl] at this
        rw [this, List.map_cons, List.append_assoc, List.singleton_append]

/-- The wrap loop started on the first token: both branches of the first
iteration coincide when the current line is empty. -/
lemma wrapLoopEnglish_start (measure : String → Int) (maxW : Int)
    (w : String) (rest : List String) :
    wrapLoopEnglish measure maxW [] "" (w :: rest) =
      wrapLoopEnglish measure maxW [] w rest := by
  show (if measure ("" ++ (if ("" : String) ≠ "" then " " else "") ++ w) ≤ maxW
        then wrapLoopEnglish measure maxW []
          ("" ++ (if ("" : String) ≠ "" then " " else "") ++ w) rest
        else wrapLoopEnglish measure maxW
          (if ("" : String) ≠ "" then [] ++ [""] else []) w rest) =
    wrapLoopEnglish measure maxW [] w rest
  have h1 : ("" ++ (if ("" : String) ≠ "" then " " else "") ++ w) = w := by
    rw [if_neg (by simp)]
    rfl
  have h2 : (if ("" : String) ≠ "" then [] ++ [""] else ([] : List String)) = [] := by
    rw [if_neg (by simp)]
  rw [h1, h2, ite_self]

/-- Greedy-wrap specification of `wrap_english_text` on texts whose
space-separated tokens are all non-empty. -/
lemma wrap_english_partition (measure : String → Int) (maxW : Int) (text : String)
    (h : ∀ w ∈ pySplit ' ' text, w ≠ "") :
    ∃ P : List (List String),
      P.flatten = pySplit ' ' text ∧
      (∀ g ∈ P, g ≠ [] ∧ (∀ w ∈ g, w ≠ "") ∧
        (measure (joinWords g) ≤ maxW ∨ ∃ w, g = [w])) ∧
      wrap_english_text text measure maxW = P.map joinWords := by
  unfold wrap_english_text
  rcases hsp : pySplit ' ' text with _ | ⟨w, rest⟩
  · exact ⟨[], by simp, by simp, rfl⟩
  · rw [hsp] at h
    have hw : w ≠ "" := h w (by simp)
    have hrest : ∀ x ∈ rest, x ≠ "" := fun x hx => h x (by simp [hx])
    obtain ⟨P, hflat, hprops, hloop⟩ :=
      wrapLoopEnglish_partition measure maxW rest [w] (by simp)
        (by intro x hx; rw [List.mem_singleton] at hx; subst hx; exact hw)
        hrest (Or.inr ⟨w, rfl⟩)
    refine ⟨P, by rw [hflat, List.singleton_append], hprops, ?_⟩
    rw [wrapLoopEnglish_start]
    have := hloop []
    rw [show joinWords [w] = w from rfl] at this
    rw [this, List.nil_append]

/-! ### Dimension helpers -/

lemma generate_ayah_image_width (env : RenderEnv) (req : RenderRequest) :
    (generate_ayah_image env req).width =
      (cardDimensions req.square req.portrait).1 + SHADOW_EXPAND * 2 := rfl

lemma generate_ayah_image_height (env : RenderEnv) (req : RenderRequest) :
    (generate_ayah_image env req).height =
      (cardDimensions req.square req.portrait).2 + SHADOW_EXPAND * 2 := rfl

lemma generate_ayah_image_bytes_width (env : RenderEnv) (req : RenderRequest)
    (format : String) :
    (generate_ayah_image_bytes env req format).width =
      (generate_ayah_image env req).width := by
  unfold generate_ayah_image_bytes
  split <;> rfl

lemma generate_ayah_image_bytes_height (env : RenderEnv) (req : RenderRequest)
    (format : String) :
    (generate_ayah_image_bytes env req format).height =
      (generate_ayah_image env req).height := by
  unfold generate_ayah_image_bytes
  split <;> rfl

/-! ### Claim theorems -/

/-- C1: For every render request, the produced image's dimensions — and the
dimensions of the encoded output — are a pure function of the aspect flags
alone: the aspect-mode card dimensions (2400x1350 landscape, 2160x2160
square, 1620x2880 portrait) plus twice the shadow-expand constant 200 on
each axis, independent of style, format, text content and every other
input (including all external oracles). -/
theorem canvas_dims_pure_function :
    (∀ env req, ((generate_ayah_image env req).width, (generate_ayah_image env req).height) =
      ((cardDimensions req.square req.portrait).1 + SHADOW_EXPAND * 2,
       (cardDimensions req.square req.portrait).2 + SHADOW_EXPAND * 2)) ∧
    (∀ env₁ req₁ env₂ req₂, req₁.square = req₂.square → req₁.portrait = req₂.portrait →
      (generate_ayah_image env₁ req₁).width = (generate_ayah_image env₂ req₂).width ∧
      (generate_ayah_image env₁ req₁).height = (generate_ayah_image env₂ req₂).height) ∧
    (cardDimensions false false = (CARD_WIDTH, CARD_HEIGHT) ∧
     cardDimensions true false = (SQUARE_CARD_SIZE, SQUARE_CARD_SIZE) ∧
     (∀ s, cardDimensions s true = (PORTRAIT_WIDTH, PORTRAIT_HEIGHT)) ∧
     CARD_WIDTH + SHADOW_EXPAND * 2 = 2800 ∧ CARD_HEIGHT + SHADOW_EXPAND * 2 = 1750 ∧
     SQUARE_CARD_SIZE + SHADOW_EXPAND * 2 = 2560 ∧
     PORTRAIT_WIDTH + SHADOW_EXPAND * 2 = 2020 ∧
     PORTRAIT_HEIGHT + SHADOW_EXPAND * 2 = 3280) ∧
    (∀ env req format,
      (generate_ayah_image_bytes env req format).width = (generate_ayah_image env req).width ∧
      (generate_ayah_image_bytes env req format).height = (generate_ayah_image env req).height) := by
  refine ⟨fun env req => rfl, ?_, by decide, ?_⟩
  · intro env₁ req₁ env₂ req₂ hsq hp
    rw [generate_ayah_image_width, generate_ayah_image_width,
        generate_ayah_image_height, generate_ayah_image_height, hsq, hp]
    exact ⟨rfl, rfl⟩
  · intro env req format
    exact ⟨generate_ayah_image_bytes_width env req format,
           generate_ayah_image_bytes_height env req format⟩

/-- Witness for C1: two landscape requests differing in style and in both
texts still render and encode at identical dimensions. -/
theorem canvas_dims_pure_function_witness :
    reqClassic.square = reqNature.square ∧ reqClassic.portrait = reqNature.portrait ∧
    (generate_ayah_image trivialEnv reqClassic).width =
      (generate_ayah_image trivialEnv reqNature).width ∧
    (generate_ayah_image trivialEnv reqClassic).height =
      (generate_ayah_image trivialEnv reqNature).height :=
  ⟨rfl, rfl,
   (canvas_dims_pure_function.2.1 trivialEnv reqClassic trivialEnv reqNature rfl rfl).1,
   (canvas_dims_pure_function.2.1 trivialEnv reqClassic trivialEnv reqNature rfl rfl).2⟩

/-- C6: the font-size tier is monotonically non-increasing in the verse
word count and in the translation word count separately, with the three
tiers keyed exactly on the thresholds 20/30 (verse) and 40/60
(translation). -/
theorem font_tier_monotone :
    (∀ v v' t t', v ≤ v' → t ≤ t' →
      (responsiveFontSizing v' t').arabicFontSize ≤
        (responsiveFontSizing v t).arabicFontSize ∧
      (responsiveFontSizing v' t').translationFontSize ≤
        (responsiveFontSizing v t).translationFontSize) ∧
    responsiveFontSizing 20 40 = ⟨108, 66, 10⟩ ∧
    responsiveFontSizing 21 40 = ⟨96, 57, 9⟩ ∧
    responsiveFontSizing 20 41 = ⟨96, 57, 9⟩ ∧
    responsiveFontSizing 30 60 = ⟨96, 57, 9⟩ ∧
    responsiveFontSizing 31 60 = ⟨84, 48, 8⟩ ∧
    responsiveFontSizing 30 61 = ⟨84, 48, 8⟩ := by
  refine ⟨?_, by decide, by decide, by decide, by decide, by decide, by decide⟩
  intro v v' t t' hv ht
  unfold responsiveFontSizing
  split_ifs <;> refine ⟨?_, ?_⟩ <;> simp only [] <;> omega

/-- Witness for C6 at concrete word counts 5 ≤ 25 (verse), 0 ≤ 0
(translation). -/
theorem font_tier_monotone_witness :
    (5 ≤ 25 ∧ 0 ≤ 0) ∧
    (responsiveFontSizing 25 0).arabicFontSize ≤
      (responsiveFontSizing 5 0).arabicFontSize ∧
    (responsiveFontSizing 25 0).translationFontSize ≤
      (responsiveFontSizing 5 0).translationFontSize :=
  ⟨⟨by decide, by decide⟩, font_tier_monotone.1 5 25 0 0 (by decide) (by decide)⟩

/-- C7: `wrap_english_text` is the greedy word wrap: its output is the
space-join of a partition of the whitespace-delimited tokens into
contiguous non-empty groups, each group either measuring within the
maximum width or being a single (over-wide) token on its own line —
tokens are never dropped, reordered or hyphenated, and no empty line is
emitted.  (The hypothesis excludes the degenerate empty tokens Python's
`split(' ')` produces only for leading, trailing or doubled spaces.) -/
theorem wrap_greedy_spec (measure : String → Int) (maxW : Int) (text : String)
    (h : ∀ w ∈ pySplit ' ' text, w ≠ "") :
    ∃ P : List (List String),
      P.flatten = pySplit ' ' text ∧
      (∀ g ∈ P, g ≠ []) ∧
      wrap_english_text text measure maxW = P.map joinWords ∧
      (∀ g ∈ P, measure (joinWords g) ≤ maxW ∨ ∃ w, g = [w]) ∧
      (∀ l ∈ wrap_english_text text measure maxW, l ≠ "") := by
  obtain ⟨P, hflat, hprops, heq⟩ := wrap_english_partition measure maxW text h
  refine ⟨P, hflat, fun g hg => (hprops g hg).1, heq, fun g hg => (hprops g hg).2.2, ?_⟩
  intro l hl
  rw [heq] at hl
  obtain ⟨g, hg, rfl⟩ := List.mem_map.mp hl
  exact joinWords_ne_empty (hprops g hg).1 (hprops g hg).2.1

/-- Witness for C7: wrapping `"aa bb cc"` at width 5 under the
string-length measure groups the tokens as `[["aa", "bb"], ["cc"]]`. -/
theorem wrap_greedy_spec_witness :
    (∀ w ∈ pySplit ' ' "aa bb cc", w ≠ "") ∧
    (∃ P : List (List String),
      P.flatten = pySplit ' ' "aa bb cc" ∧
      (∀ g ∈ P, g ≠ []) ∧
      wrap_english_text "aa bb cc" (fun s => (s.length : Int)) 5 = P.map joinWords ∧
      (∀ g ∈ P, (fun s => (s.length : Int)) (joinWords g) ≤ 5 ∨ ∃ w, g = [w]) ∧
      (∀ l ∈ wrap_english_text "aa bb cc" (fun s => (s.length : Int)) 5, l ≠ "")) :=
  ⟨by decide, wrap_greedy_spec (fun s => (s.length : Int)) 5 "aa bb cc" (by decide)⟩

/-- C9: `wrap_arabic_text` and `wrap_english_text` are extensionally equal:
for every text, measuring function and maximum width they return the same
lines — neither performs any script-specific processing. -/
theorem wrap_arabic_english_equal :
    ∀ (text : String) (measure : String → Int) (maxW : Int),
      wrap_arabic_text text measure maxW = wrap_english_text text measure maxW := by
  intro text measure maxW
  unfold wrap_arabic_text wrap_english_text
  exact wrapLoop_eq measure maxW (pySplit ' ' text) [] ""

/-- C10: when both the square and the portrait flag are set, the portrait
flag wins — the image is generated at portrait card dimensions — and the
square dimensions are selected exactly when `square` is true and
`portrait` is false. -/
theorem portrait_precedence :
    (∀ env req, req.square = true → req.portrait = true →
      ((generate_ayah_image env req).width, (generate_ayah_image env req).height) =
        (PORTRAIT_WIDTH + SHADOW_EXPAND * 2, PORTRAIT_HEIGHT + SHADOW_EXPAND * 2)) ∧
    cardDimensions true true = (PORTRAIT_WIDTH, PORTRAIT_HEIGHT) ∧
    (∀ s p, cardDimensions s p = (SQUARE_CARD_SIZE, SQUARE_CARD_SIZE) ↔
      s = true ∧ p = false) := by
  refine ⟨?_, by decide, by decide⟩
  intro env req hsq hp
  rw [generate_ayah_image_width, generate_ayah_image_height, hsq, hp]
  decide

/-- Witness for C10: a request with both flags set renders at
2020 x 3280 (portrait card plus shadow margins). -/
theorem portrait_precedence_witness :
    reqBothFlags.square = true ∧ reqBothFlags.portrait = true ∧
    ((generate_ayah_image trivialEnv reqBothFlags).width,
     (generate_ayah_image trivialEnv reqBothFlags).height) =
      (PORTRAIT_WIDTH + SHADOW_EXPAND * 2, PORTRAIT_HEIGHT + SHADOW_EXPAND * 2) :=
  ⟨rfl, rfl, portrait_precedence.1 trivialEnv reqBothFlags rfl rfl⟩

/-- C2 counterexample: no reshaping and no bidirectional reordering happen
before wrapping — `wrap_arabic_text` returns the logical-order input
unchanged whenever it fits, which differs from the visual (RTL-reordered)
form the claim requires: for the two-word Arabic verse opening, the single
output line is the logical string itself, not its bidi visual order. -/
theorem arabic_wrap_no_bidi_counterexample :
    wrap_arabic_text "بسم الله" (fun _ => 0) 0 = ["بسم الله"] ∧
    bidiVisualRTL "بسم الله" ≠ "بسم الله" ∧
    wrap_arabic_text "بسم الله" (fun _ => 0) 0 ≠ [bidiVisualRTL "بسم الله"] :=
  ⟨by decide, by decide, by decide⟩

/-- C2 (amended): `wrap_arabic_text` applies no reshaping or reordering at
all — its output lines are the space-joins of a contiguous partition of
the input's whitespace-delimited tokens in their original logical order
(the same greedy wrap as the English function). -/
theorem arabic_wrap_logical_order (measure : String → Int) (maxW : Int)
    (text : String) (h : ∀ w ∈ pySplit ' ' text, w ≠ "") :
    ∃ P : List (List String),
      P.flatten = pySplit ' ' text ∧
      (∀ g ∈ P, g ≠ []) ∧
      wrap_arabic_text text measure maxW = P.map joinWords := by
  obtain ⟨P, hflat, hprops, heq⟩ := wrap_english_partition measure maxW text h
  refine ⟨P, hflat, fun g hg => (hprops g hg).1, ?_⟩
  rw [← heq]
  unfold wrap_arabic_text wrap_english_text
  exact wrapLoop_eq measure maxW (pySplit ' ' text) [] ""

/-- Witness for the amended C2 on a concrete two-token Arabic text. -/
theorem arabic_wrap_logical_order_witness :
    (∀ w ∈ pySplit ' ' "بسم الله", w ≠ "") ∧
    (∃ P : List (List String),
      P.flatten = pySplit ' ' "بسم الله" ∧
      (∀ g ∈ P, g ≠ []) ∧
      wrap_arabic_text "بسم الله" (fun s => (s.length : Int)) 3 = P.map joinWords) :=
  ⟨by decide,
   arabic_wrap_logical_order (fun s => (s.length : Int)) 3 "بسم الله" (by decide)⟩

/-- C3 counterexample: a request with an unrecognized format (`"bmp"`), an
unrecognized style (`"vaporwave"`) and empty required Arabic text is not
rejected: the endpoint silently coerces the format to `"PNG"` and the
pipeline still produces a full-size landscape PNG image. -/
theorem invalid_request_not_rejected_counterexample :
    resolveImageFormat "bmp" = "PNG" ∧
    reqInvalid.style ≠ "classic" ∧ reqInvalid.style ≠ "nature" ∧
    reqInvalid.arabic_text = "" ∧
    ((generate_ayah_image_bytes trivialEnv reqInvalid (resolveImageFormat "bmp")).width,
     (generate_ayah_image_bytes trivialEnv reqInvalid (resolveImageFormat "bmp")).height) =
      (2800, 1750) ∧
    (generate_ayah_image_bytes trivialEnv reqInvalid (resolveImageFormat "bmp")).hasAlpha =
      true :=
  ⟨by decide, by decide, by decide, rfl, rfl, rfl⟩

/-- C3 (amended): no `InvalidRequest` rejection exists — the endpoint maps
any unrecognized format identifier to `"PNG"`, an unrecognized style falls
through to the classic branch inside the renderer, and the pipeline is
total: every request (any style or format string, empty Arabic text
included) yields an encoded image of the canvas dimensions for its aspect
flags. -/
theorem invalid_inputs_coerced_total :
    (∀ format : String, ¬ (["png", "jpeg", "jpg"].contains (pyLower format) = true) →
      resolveImageFormat format = "PNG") ∧
    (∀ env req format,
      ((generate_ayah_image_bytes env req format).width,
       (generate_ayah_image_bytes env req format).height) =
        ((cardDimensions req.square req.portrait).1 + SHADOW_EXPAND * 2,
         (cardDimensions req.square req.portrait).2 + SHADOW_EXPAND * 2)) := by
  constructor
  · intro format h
    unfold resolveImageFormat
    rw [if_neg h]
  · intro env req format
    rw [generate_ayah_image_bytes_width, generate_ayah_image_bytes_height,
        generate_ayah_image_width, generate_ayah_image_height]

/-- Witness for the amended C3 at the unrecognized format `"bmp"`. -/
theorem invalid_inputs_coerced_total_witness :
    ¬ (["png", "jpeg", "jpg"].contains (pyLower "bmp") = true) ∧
    resolveImageFormat "bmp" = "PNG" :=
  ⟨by decide, invalid_inputs_coerced_total.1 "bmp" (by decide)⟩

/-- C4 counterexample: on a background-cache miss during a render,
`get_unsplash_image` does attempt a network fetch — and when the fetch
succeeds it stores the result under the catalog-derived cache key and
returns the fetched image, not the procedural fallback. -/
theorem render_path_fetches_counterexample :
    (get_unsplash_image 50 50 (fun _ => none) (fun _ => none) 0).attemptedFetch = true ∧
    (get_unsplash_image 50 50 (fun _ => none)
        (fun _ => some (PILImage.new 10 10 ⟨1, 2, 3, 255⟩)) 0).attemptedFetch = true ∧
    (get_unsplash_image 50 50 (fun _ => none)
        (fun _ => some (PILImage.new 10 10 ⟨1, 2, 3, 255⟩)) 0).storedKey =
      some "photo-1464822759023-fed622ff2c3b" :=
  ⟨rfl, rfl, rfl⟩

/-- C4 (amended): the background lookup order is cache hit (no network),
otherwise an inline fetch-and-store on the live render path, and the
deterministic procedural dark-gradient fallback only when that fetch
fails. -/
theorem bg_lookup_order (w h : Nat) (cache net : String → Option PILImage)
    (choice : Nat) :
    (∀ img, cache (imageId (_NATURE_IMAGES.getD (choice % _NATURE_IMAGES.length) "")) =
        some img →
      get_unsplash_image w h cache net choice = ⟨img.resize w h, false, none⟩) ∧
    (cache (imageId (_NATURE_IMAGES.getD (choice % _NATURE_IMAGES.length) "")) = none →
      (get_unsplash_image w h cache net choice).attemptedFetch = true ∧
      (∀ img, net (_NATURE_IMAGES.getD (choice % _NATURE_IMAGES.length) "") = some img →
        get_unsplash_image w h cache net choice =
          ⟨img.resize w h, true,
           some (imageId (_NATURE_IMAGES.getD (choice % _NATURE_IMAGES.length) ""))⟩) ∧
      (net (_NATURE_IMAGES.getD (choice % _NATURE_IMAGES.length) "") = none →
        get_unsplash_image w h cache net choice = ⟨fallbackGradient w h, true, none⟩)) := by
  constructor
  · intro img hc
    simp only [get_unsplash_image, hc]
  · intro hc
    refine ⟨?_, ?_, ?_⟩
    · rcases hn : net (_NATURE_IMAGES.getD (choice % _NATURE_IMAGES.length) "") with _ | img <;>
        simp only [get_unsplash_image, hc, hn]
    · intro img hn
      simp only [get_unsplash_image, hc, hn]
    · intro hn
      simp only [get_unsplash_image, hc, hn]

/-- Witness for the amended C4: empty cache and failing network yield the
procedural fallback after an attempted fetch. -/
theorem bg_lookup_order_witness :
    get_unsplash_image 50 50 (fun _ => none) (fun _ => none) 0 =
      ⟨fallbackGradient 50 50, true, none⟩ :=
  ((bg_lookup_order 50 50 (fun _ => none) (fun _ => none) 0).2 rfl).2.2 rfl

/-- C5 counterexample: font resolution is not a startup-built table — the
result of a render-time `get_font`/`get_arabic_font` call depends on the
filesystem state at the moment of the call (two filesystem states give
different handles), so the filesystem is probed per request. -/
theorem font_probe_counterexample :
    get_font 42 (fun _ => false) (fun _ => false) = FontHandle.builtinDefault ∧
    get_font 42 (fun p => p == "fonts/Arial.ttf") (fun _ => true) =
      FontHandle.truetype "fonts/Arial.ttf" 42 ∧
    FontHandle.builtinDefault ≠ FontHandle.truetype "fonts/Arial.ttf" 42 ∧
    get_arabic_font 42 (fun _ => false) (fun _ => false) = FontHandle.builtinDefault ∧
    get_arabic_font 42 (fun p => p == "fonts/Arial.ttf") (fun _ => true) =
      FontHandle.truetype "fonts/Arial.ttf" 42 :=
  ⟨rfl, rfl, by decide, rfl, rfl⟩

/-- C5 (amended): each call to `get_font`/`get_arabic_font` re-resolves
against the current filesystem: it returns a bundled candidate that exists
and loads, or a system-loadable candidate, or — whatever the filesystem
holds — the guaranteed built-in default font, so a handle always exists
but is a function of the per-call filesystem state. -/
theorem font_resolution_per_call (size : Nat) (fsExists truetypeOk : String → Bool) :
    (get_font size fsExists truetypeOk = FontHandle.builtinDefault ∨
      (∃ n ∈ font_options,
        get_font size fsExists truetypeOk = FontHandle.truetype ("fonts/" ++ n) size ∧
        fsExists ("fonts/" ++ n) = true ∧ truetypeOk ("fonts/" ++ n) = true) ∨
      (∃ n ∈ font_options,
        get_font size fsExists truetypeOk = FontHandle.truetype n size ∧
        truetypeOk n = true)) ∧
    (get_arabic_font size fsExists truetypeOk = FontHandle.builtinDefault ∨
      (∃ n ∈ arabic_font_options,
        get_arabic_font size fsExists truetypeOk = FontHandle.truetype ("fonts/" ++ n) size ∧
        fsExists ("fonts/" ++ n) = true ∧ truetypeOk ("fonts/" ++ n) = true) ∨
      (∃ n ∈ arabic_font_options,
        get_arabic_font size fsExists truetypeOk = FontHandle.truetype n size ∧
        truetypeOk n = true)) := by
  constructor
  · unfold get_font
    rcases h1 : font_options.find?
        (fun n => fsExists ("fonts/" ++ n) && truetypeOk ("fonts/" ++ n)) with _ | n
    · rcases h2 : font_options.find? (fun n => truetypeOk n) with _ | n
      · exact Or.inl rfl
      · refine Or.inr (Or.inr ⟨n, List.mem_of_find?_eq_some h2, rfl, ?_⟩)
        exact List.find?_some h2
    · have hp := List.find?_some h1
      rw [Bool.and_eq_true] at hp
      exact Or.inr (Or.inl ⟨n, List.mem_of_find?_eq_some h1, rfl, hp.1, hp.2⟩)
  · unfold get_arabic_font
    rcases h1 : arabic_font_options.find?
        (fun n => fsExists ("fonts/" ++ n) && truetypeOk ("fonts/" ++ n)) with _ | n
    · rcases h2 : arabic_font_options.find? (fun n => truetypeOk n) with _ | n
      · exact Or.inl rfl
      · refine Or.inr (Or.inr ⟨n, List.mem_of_find?_eq_some h2, rfl, ?_⟩)
        exact List.find?_some h2
    · have hp := List.find?_some h1
      rw [Bool.and_eq_true] at hp
      exact Or.inr (Or.inl ⟨n, List.mem_of_find?_eq_some h1, rfl, hp.1, hp.2⟩)

/-- C8: PNG encoding keeps the rendered `RGBA` image (alpha intact); a
`"jpg"`/`"jpeg"` format (case-insensitive) first flattens alpha onto the
opaque background `(255, 247, 237)` — the theme's `gradient_start`
fallback color — then encodes three channels without alpha at the fixed
quality 95. -/
theorem encode_alpha_behavior :
    hex_to_rgb COLORS_gradient_start = (255, 247, 237) ∧
    (∀ env req,
      generate_ayah_image_bytes env req "png" = .png (generate_ayah_image env req) ∧
      (generate_ayah_image_bytes env req "png").hasAlpha = true) ∧
    (∀ env req format, pyLower format = "jpg" ∨ pyLower format = "jpeg" →
      generate_ayah_image_bytes env req format =
        .jpeg (generate_ayah_image env req).width (generate_ayah_image env req).height
          (flattenOnto (255, 247, 237) (generate_ayah_image env req)) 95 ∧
      (generate_ayah_image_bytes env req format).hasAlpha = false ∧
      (generate_ayah_image_bytes env req format).qualityOf = some 95) := by
  refine ⟨by decide, ?_, ?_⟩
  · intro env req
    constructor
    · unfold generate_ayah_image_bytes
      rw [if_neg (by decide)]
    · unfold generate_ayah_image_bytes
      rw [if_neg (by decide)]
      rfl
  · intro env req format hfmt
    refine ⟨?_, ?_, ?_⟩ <;>
      unfold generate_ayah_image_bytes <;>
      rw [if_pos hfmt] <;> rfl

/-- Witness for C8 at the concrete format string `"JPEG"`. -/
theorem encode_alpha_behavior_witness :
    (pyLower "JPEG" = "jpg" ∨ pyLower "JPEG" = "jpeg") ∧
    generate_ayah_image_bytes trivialEnv reqClassic "JPEG" =
      .jpeg (generate_ayah_image trivialEnv reqClassic).width
        (generate_ayah_image trivialEnv reqClassic).height
        (flattenOnto (255, 247, 237) (generate_ayah_image trivialEnv reqClassic)) 95 ∧
    (generate_ayah_image_bytes trivialEnv reqClassic "JPEG").hasAlpha = false ∧
    (generate_ayah_image_bytes trivialEnv reqClassic "JPEG").qualityOf = some 95 :=
  ⟨by decide, encode_alpha_behavior.2.2 trivialEnv reqClassic "JPEG" (by decide)⟩

end ShareImage
